import Mathlib

/-!
# HackOrSnooze: the client-side model layer

A shallow embedding of `src/js/models.js` (classes `Story`, `StoryList`, `User`)
and of the story lookup of `src/js/stories.js`.

Conventions of the embedding.

* A JavaScript object has an identity. A `Story` value carries its identity in
  the field `ref`; `===` on two stories is equality of the whole value, the
  identity included, so two objects built from the same record are different.
  Stories are never assigned to after construction, so the fields can travel
  with the identity.
* A method that mutates `this` takes the receiver and returns the receiver
  after the call, together with the completion of the call (a returned value or
  a thrown error) and the runtime (object allocator and console).
* An `async` method awaits exactly one axios request and reads no array before
  that `await`. The settlement of the request is an argument of the embedded
  method (`AxiosResult`), and the receiver it is applied to is the object as it
  is when the request settles.
* `toggleFavoriteStory` is synchronous: it returns once it has dispatched an
  `async` call, which stays pending (`PendingCall`) until `settle` runs the rest
  of it. Schedules of toggles and settlements are spelled out as definitions of
  their own (`toggleFavoriteStorySettled`, `toggleFavoriteStoryOverlapped`).
-/

namespace HackOrSnooze

/-! ## JavaScript values and built-ins used by the source -/

/-- An error value: what a `throw` carries and what a rejected promise holds. -/
inductive JsError where
  | typeError (message : String)
  | axiosError (message : String)
  deriving DecidableEq, Repr

/-- The settlement of the promise returned by an axios call: fulfilled with a
response whose `data` is given, or rejected (network failure, non-2xx status). -/
inductive AxiosResult (α : Type) where
  | resolved (data : α)
  | rejected (error : JsError)
  deriving Repr

/-- What a JavaScript function hands back when it does return: `undefined`
(no `return` statement, or a bare `return;`), `null`, or a proper value. -/
inductive JsReturn (α : Type) where
  | undefined
  | null
  | value (v : α)
  deriving DecidableEq, Repr

/-- The part of the browser the model layer touches: the next free object
identity and the lines written to the console (oldest first). -/
structure Runtime where
  nextRef : Nat
  console : List String
  deriving DecidableEq, Repr

/-- The effect of `console.debug(line)`. -/
def Runtime.debug (rt : Runtime) (line : String) : Runtime :=
  { rt with console := rt.console ++ ["debug: " ++ line] }

/-- The effect of `console.error(label, error)`. -/
def Runtime.error (rt : Runtime) (label : String) (_error : JsError) : Runtime :=
  { rt with console := rt.console ++ ["error: " ++ label] }

/-- The state after a method call: how the call completed, the receiver object
after the call, and the runtime after the call. -/
structure Outcome (α σ : Type) where
  completion : Except JsError α
  receiver : σ
  runtime : Runtime

/-- `Array.prototype.indexOf(x)`: the index of the first element strictly equal
to `x`, or `-1` when there is none. -/
def indexOf {α : Type} [DecidableEq α] (xs : List α) (x : α) : Int :=
  if List.indexOf x xs < xs.length then (List.indexOf x xs : Int) else -1

/-- `Array.prototype.splice(start, deleteCount)` with no inserted items, as the
array left behind. A negative `start` counts from the end of the array; the
number of deleted elements is clamped to what remains after the start. -/
def splice {α : Type} (xs : List α) (start deleteCount : Int) : List α :=
  let len : Int := xs.length
  let actualStart : Int := if start < 0 then max (len + start) 0 else min start len
  let actualDeleteCount : Int := min (max deleteCount 0) (len - actualStart)
  xs.take actualStart.toNat ++ xs.drop (actualStart.toNat + actualDeleteCount.toNat)

/-- `Array.prototype.push(x)`, as the array left behind. -/
def push {α : Type} (xs : List α) (x : α) : List α :=
  xs ++ [x]

/-! ## Story -/

/-- A plain story object as the API sends it:
`{storyId, title, author, url, username, createdAt}`. -/
structure StoryRecord where
  storyId : String
  title : String
  author : String
  url : String
  username : String
  createdAt : String
  deriving DecidableEq, Repr

/-- An instance of class `Story`: its object identity and its six fields. -/
structure Story where
  ref : Nat
  storyId : String
  title : String
  author : String
  url : String
  username : String
  createdAt : String
  deriving DecidableEq, Repr

/-- The constructor `new Story({storyId, title, author, url, username, createdAt})`
for the object allocated at identity `ref`. -/
def Story.new (ref : Nat) (r : StoryRecord) : Story :=
  { ref := ref
    storyId := r.storyId
    title := r.title
    author := r.author
    url := r.url
    username := r.username
    createdAt := r.createdAt }

/-- The expression `records.map(s => new Story(s))`: one fresh object per record,
allocated left to right starting at identity `next`. -/
def mapNewStory : Nat → List StoryRecord → List Story
  | _, [] => []
  | next, r :: rs => Story.new next r :: mapNewStory (next + 1) rs

/-! ## User (state only; its methods follow StoryList) -/

/-- An instance of class `User`. -/
structure User where
  username : String
  name : String
  createdAt : String
  favorites : List Story
  ownStories : List Story
  loginToken : String
  deriving DecidableEq, Repr

/-- The `user` object of a signup, login or profile response. The two story
arrays may be missing (`undefined`), which the constructor defaults to `[]`. -/
structure UserRecord where
  username : String
  name : String
  createdAt : String
  favorites : Option (List StoryRecord)
  stories : Option (List StoryRecord)
  deriving DecidableEq, Repr

/-- The body `{ stories: [...] }` of a list response. -/
structure StoriesData where
  stories : List StoryRecord
  deriving DecidableEq, Repr

/-- The body `{ story: {...} }` of a create response. -/
structure StoryData where
  story : StoryRecord
  deriving DecidableEq, Repr

/-- The body `{ message }` of a delete, favorite or unfavorite response. -/
structure MessageData where
  message : String
  deriving DecidableEq, Repr

/-- The body `{ user: {...} }` of a profile response. -/
structure UserData where
  user : UserRecord
  deriving DecidableEq, Repr

/-- The draft `{title, author, url}` handed to `addStory`. -/
structure Draft where
  title : String
  author : String
  url : String
  deriving DecidableEq, Repr

/-! ## StoryList -/

/-- An instance of class `StoryList`. -/
structure StoryList where
  stories : List Story
  deriving DecidableEq, Repr

/-- The static method `StoryList.getStories()` (models.js 51-73). There is no
try/catch: a rejected request rejects the returned promise. -/
def StoryList.getStories (response : AxiosResult StoriesData) (rt : Runtime) :
    Except JsError StoryList × Runtime :=
  match response with
  | .resolved data =>
      let stories := mapNewStory rt.nextRef data.stories
      (.ok { stories := stories }, { rt with nextRef := rt.nextRef + data.stories.length })
  | .rejected error => (.error error, rt)

/-- The method `addStory(user, newStory)` (models.js 82-108). Reading
`user.loginToken` throws when there is no user; there is no try/catch, so a
rejected request rejects the returned promise. The draft only travels in the
request body. -/
def StoryList.addStory (self : StoryList) (user : Option User) (_newStory : Draft)
    (response : AxiosResult StoryData) (rt : Runtime) : Outcome Story StoryList :=
  match user with
  | none =>
      { completion := .error (.typeError "cannot read loginToken of undefined")
        receiver := self
        runtime := rt }
  | some _ =>
      match response with
      | .resolved data =>
          let story := Story.new rt.nextRef data.story
          { completion := .ok story
            receiver := { stories := push self.stories story }
            runtime := { rt with nextRef := rt.nextRef + 1 } }
      | .rejected error =>
          { completion := .error error
            receiver := self
            runtime := rt }

/-- The method `removeStory(user, targetStory)` (models.js 111-132). -/
def StoryList.removeStory (self : StoryList) (user : Option User) (targetStory : Story)
    (response : AxiosResult MessageData) (rt : Runtime) :
    Outcome (JsReturn (List Story)) StoryList :=
  match user with
  | none =>
      { completion := .ok .undefined
        receiver := self
        runtime := rt }
  | some _ =>
      match response with
      | .resolved data =>
          let storyIndex := indexOf self.stories targetStory
          let stories := splice self.stories storyIndex 1
          { completion := .ok (.value stories)
            receiver := { stories := stories }
            runtime := rt.debug data.message }
      | .rejected error =>
          { completion := .ok .null
            receiver := self
            runtime := rt.error "removeStory failed" error }

/-! ## User -/

/-- The constructor `new User({username, name, createdAt, favorites = [],
ownStories = []}, token)` (models.js 146-164): both story arrays are rebuilt as
fresh `Story` objects, favorites first. -/
def User.new (username name createdAt : String)
    (favorites ownStories : Option (List StoryRecord)) (token : String) (rt : Runtime) :
    User × Runtime :=
  let favoriteRecords := favorites.getD []
  let ownRecords := ownStories.getD []
  let favs := mapNewStory rt.nextRef favoriteRecords
  let own := mapNewStory (rt.nextRef + favoriteRecords.length) ownRecords
  ({ username := username
     name := name
     createdAt := createdAt
     favorites := favs
     ownStories := own
     loginToken := token },
   { rt with nextRef := rt.nextRef + favoriteRecords.length + ownRecords.length })

/-- The static method `User.loginViaStoredCredentials(token, username)`
(models.js 225-249). -/
def User.loginViaStoredCredentials (token : String) (_username : String)
    (response : AxiosResult UserData) (rt : Runtime) :
    Except JsError (JsReturn User) × Runtime :=
  match response with
  | .resolved data =>
      let user := data.user
      let built := User.new user.username user.name user.createdAt user.favorites
        user.stories token rt
      (.ok (.value built.1), built.2)
  | .rejected err => (.ok .null, rt.error "loginViaStoredCredentials failed" err)

/-- The method `favoriteStory(story)` (models.js 251-267). It has no `return`
on the success path. -/
def User.favoriteStory (self : User) (story : Story) (response : AxiosResult MessageData)
    (rt : Runtime) : Outcome (JsReturn Unit) User :=
  match response with
  | .resolved data =>
      { completion := .ok .undefined
        receiver := { self with favorites := push self.favorites story }
        runtime := rt.debug data.message }
  | .rejected error =>
      { completion := .ok .null
        receiver := self
        runtime := rt.error "favoriteStory failed" error }

/-- The method `unfavoriteStory(story)` (models.js 269-286). It has no `return`
on the success path. -/
def User.unfavoriteStory (self : User) (story : Story) (response : AxiosResult MessageData)
    (rt : Runtime) : Outcome (JsReturn Unit) User :=
  match response with
  | .resolved data =>
      let storyIndex := indexOf self.favorites story
      { completion := .ok .undefined
        receiver := { self with favorites := splice self.favorites storyIndex 1 }
        runtime := rt.debug data.message }
  | .rejected error =>
      { completion := .ok .null
        receiver := self
        runtime := rt.error "unfavoriteStory failed" error }

/-- The method `storyInFavorites(story)` (models.js 291-301): `find` by
`storyId`, and the truthiness of what it found. -/
def User.storyInFavorites (self : User) (story : Story) (rt : Runtime) : Outcome Bool User :=
  { completion :=
      .ok ((self.favorites.find? fun favoriteStory =>
        decide (favoriteStory.storyId = story.storyId)).isSome)
    receiver := self
    runtime := rt.debug "storyInFavorites" }

/-- An `async` call of `favoriteStory` or `unfavoriteStory` whose request has
been issued and whose promise nobody awaits: the rest of its body runs when the
request settles. -/
inductive PendingCall where
  | unfavoriteStory (story : Story)
  | favoriteStory (story : Story)
  deriving DecidableEq, Repr

/-- The state when `toggleFavoriteStory` returns: its completion, the user, the
runtime, and the call it dispatched, still pending. -/
structure Dispatch where
  completion : Except JsError (JsReturn Unit)
  receiver : User
  runtime : Runtime
  pending : Option PendingCall

/-- The method `toggleFavoriteStory(story)` (models.js 306-317). The method is
not `async` and does not await the call it dispatches: it tests
`storyInFavorites` on the favorites as they are now, dispatches
`unfavoriteStory` or `favoriteStory`, and returns `undefined` with the user
untouched. -/
def User.toggleFavoriteStory (self : User) (story : Story) (rt : Runtime) : Dispatch :=
  let rt1 := rt.debug "User.toggleFavoriteStory"
  let test := self.storyInFavorites story rt1
  match test.completion with
  | .error e =>
      { completion := .error e
        receiver := test.receiver
        runtime := test.runtime
        pending := none }
  | .ok true =>
      { completion := .ok .undefined
        receiver := test.receiver
        runtime := test.runtime
        pending := some (.unfavoriteStory story) }
  | .ok false =>
      { completion := .ok .undefined
        receiver := test.receiver
        runtime := test.runtime
        pending := some (.favoriteStory story) }

/-- The settlement of the request of a pending call: the rest of
`unfavoriteStory` or `favoriteStory` runs on the user as it is at that moment. -/
def settle (pending : Option PendingCall) (self : User) (response : AxiosResult MessageData)
    (rt : Runtime) : User × Runtime :=
  match pending with
  | none => (self, rt)
  | some (.unfavoriteStory story) =>
      let call := self.unfavoriteStory story response rt
      (call.receiver, call.runtime)
  | some (.favoriteStory story) =>
      let call := self.favoriteStory story response rt
      (call.receiver, call.runtime)

/-- The schedule without overlap: `toggleFavoriteStory(story)` is called and the
request it issued settles before any other event handler runs. The receiver of
the outcome is the user after that settlement. -/
def User.toggleFavoriteStorySettled (self : User) (story : Story)
    (response : AxiosResult MessageData) (rt : Runtime) : Outcome (JsReturn Unit) User :=
  let call := self.toggleFavoriteStory story rt
  let settled := settle call.pending call.receiver response call.runtime
  { completion := call.completion
    receiver := settled.1
    runtime := settled.2 }

/-- The schedule with overlap: `toggleFavoriteStory(first)` is called, then
`toggleFavoriteStory(second)` is called before the first request has settled
(two clicks in a row); the two requests then settle in the order they were
issued. The result is the user and runtime after both settlements. -/
def User.toggleFavoriteStoryOverlapped (self : User) (first second : Story)
    (response1 response2 : AxiosResult MessageData) (rt : Runtime) : User × Runtime :=
  let call1 := self.toggleFavoriteStory first rt
  let call2 := call1.receiver.toggleFavoriteStory second call1.runtime
  let settled1 := settle call1.pending call2.receiver response1 call2.runtime
  settle call2.pending settled1.1 response2 settled1.2

/-! ## stories.js -/

/-- The lookup of `getClickedStory(event)` (stories.js 104-123), from the id
attribute of the clicked list item: `filter` by `storyId`, then element `[0]`,
which is `undefined` when nothing matched. -/
def getClickedStory (storyList : StoryList) (targetStoryId : String) : Option Story :=
  (storyList.stories.filter fun story => decide (story.storyId = targetStoryId)).head?

/-! ## Concrete objects

One session, traced through the functions above: the page loads the list
`[a, b]`, the user logs in with both stories among the favorites, and the
clicked story is looked up in the list. -/

/-- The record of story `a` as the API sends it. -/
def exRecordA : StoryRecord :=
  { storyId := "a", title := "A", author := "ann", url := "https://a.example",
    username := "poster", createdAt := "day1" }

/-- The record of story `b` as the API sends it. -/
def exRecordB : StoryRecord :=
  { storyId := "b", title := "B", author := "bob", url := "https://b.example",
    username := "poster", createdAt := "day2" }

/-- A fresh runtime: no object allocated, nothing logged. -/
def exRuntime : Runtime :=
  { nextRef := 0, console := [] }

/-- The runtime once the two stories of the list have been allocated. -/
def exRuntimeLoaded : Runtime :=
  { nextRef := 2, console := [] }

/-- The `Story` object of the list for story `a` (identity 0). -/
def exStoryA : Story := Story.new 0 exRecordA

/-- The `Story` object of the list for story `b` (identity 1). -/
def exStoryB : Story := Story.new 1 exRecordB

/-- The `Story` object the `User` constructor builds for favorite `a` (identity 2). -/
def exFavoriteA : Story := Story.new 2 exRecordA

/-- The `Story` object the `User` constructor builds for favorite `b` (identity 3). -/
def exFavoriteB : Story := Story.new 3 exRecordB

/-- The list `getStories` builds from the response `[a, b]`. -/
def exStoryList : StoryList :=
  { stories := [exStoryA, exStoryB] }

/-- The profile the API returns for the user: both stories are favorites. -/
def exUserRecord : UserRecord :=
  { username := "reader", name := "Reader", createdAt := "day0",
    favorites := some [exRecordA, exRecordB], stories := none }

/-- The user `loginViaStoredCredentials` builds from `exUserRecord`. -/
def exUser : User :=
  { username := "reader", name := "Reader", createdAt := "day0",
    favorites := [exFavoriteA, exFavoriteB], ownStories := [], loginToken := "token" }

/-- A user whose favorites hold the list object of story `a` twice. -/
def exUserTwice : User :=
  { exUser with favorites := [exStoryA, exStoryA] }

/-- A list holding two objects with the storyId of `a`. -/
def exStoryListTwice : StoryList :=
  { stories := [exStoryA, exFavoriteA] }

/-- A user whose favorites hold the list object of story `a` itself, followed by
the constructor-built object of story `b`. -/
def exUserMember : User :=
  { exUser with favorites := [exStoryA, exFavoriteB] }

/-- A user whose only favorite is the constructor-built object of story `b`. -/
def exUserOnlyB : User :=
  { exUser with favorites := [exFavoriteB] }

/-- The body of a successful delete, favorite or unfavorite response. -/
def exMessage : MessageData :=
  { message := "done" }

/-! ## Lemmas on the array built-ins -/

theorem indexOf_of_mem {α : Type} [DecidableEq α] {xs : List α} {x : α} (h : x ∈ xs) :
    indexOf xs x = (List.indexOf x xs : Int) := by
  unfold indexOf
  rw [if_pos (List.indexOf_lt_length.mpr h)]

theorem indexOf_of_not_mem {α : Type} [DecidableEq α] {xs : List α} {x : α} (h : x ∉ xs) :
    indexOf xs x = -1 := by
  unfold indexOf
  rw [if_neg]
  intro hlt
  exact h (List.indexOf_lt_length.mp hlt)

theorem splice_at {α : Type} (xs : List α) (i : Nat) (h : i < xs.length) :
    splice xs (i : Int) 1 = xs.eraseIdx i := by
  have h1 : ¬ ((i : Int) < 0) := by omega
  have h2 : min (i : Int) (xs.length : Int) = (i : Int) := by omega
  have h3 : min (max (1 : Int) 0) ((xs.length : Int) - (i : Int)) = 1 := by omega
  simp only [splice, if_neg h1, h2, h3, Int.toNat_ofNat, Int.toNat_one]
  exact (List.eraseIdx_eq_take_drop_succ xs i).symm

theorem splice_last {α : Type} (xs : List α) : splice xs (-1) 1 = xs.dropLast := by
  cases hxs : xs with
  | nil => simp [splice]
  | cons y ys =>
      have h1 : ((-1 : Int) < 0) := by omega
      have h2 : max (((y :: ys).length : Int) + (-1)) 0 = (ys.length : Int) := by
        simp only [List.length_cons]; push_cast; omega
      have h3 : min (max (1 : Int) 0) (((y :: ys).length : Int) - (ys.length : Int)) = 1 := by
        simp only [List.length_cons]; push_cast; omega
      simp only [splice, if_pos h1, h2, h3, Int.toNat_ofNat, Int.toNat_one]
      rw [List.dropLast_eq_take]
      simp

/-- Removing by `indexOf` an element the array holds erases its first occurrence. -/
theorem splice_indexOf_of_mem {α : Type} [DecidableEq α] {xs : List α} {x : α} (h : x ∈ xs) :
    splice xs (indexOf xs x) 1 = xs.erase x := by
  rw [indexOf_of_mem h, splice_at xs _ (List.indexOf_lt_length.mpr h)]
  exact List.eraseIdx_indexOf_eq_erase x xs

/-- Removing by `indexOf` an element the array does not hold drops the last element. -/
theorem splice_indexOf_of_not_mem {α : Type} [DecidableEq α] {xs : List α} {x : α}
    (h : x ∉ xs) : splice xs (indexOf xs x) 1 = xs.dropLast := by
  rw [indexOf_of_not_mem h, splice_last]

theorem splice_indexOf_sublist {α : Type} [DecidableEq α] (xs : List α) (x : α) :
    List.Sublist (splice xs (indexOf xs x) 1) xs := by
  by_cases h : x ∈ xs
  · rw [splice_indexOf_of_mem h]
    exact List.erase_sublist x xs
  · rw [splice_indexOf_of_not_mem h]
    exact List.dropLast_sublist xs

/-! ## Lemmas on the methods -/

theorem storyInFavorites_completion (u : User) (story : Story) (rt : Runtime) :
    (u.storyInFavorites story rt).completion
      = .ok (decide (story.storyId ∈ u.favorites.map Story.storyId)) := by
  unfold User.storyInFavorites
  simp only [Except.ok.injEq]
  rw [Bool.eq_iff_iff]
  simp only [List.find?_isSome, decide_eq_true_eq, List.mem_map]

theorem storyInFavorites_receiver (u : User) (story : Story) (rt : Runtime) :
    (u.storyInFavorites story rt).receiver = u := rfl

theorem toggle_favorites_resolved (u : User) (story : Story) (data : MessageData)
    (rt : Runtime) :
    (u.toggleFavoriteStorySettled story (.resolved data) rt).receiver.favorites
      = if story.storyId ∈ u.favorites.map Story.storyId
        then splice u.favorites (indexOf u.favorites story) 1
        else u.favorites ++ [story] := by
  unfold User.toggleFavoriteStorySettled settle User.toggleFavoriteStory
  simp only [storyInFavorites_completion, storyInFavorites_receiver]
  by_cases h : story.storyId ∈ u.favorites.map Story.storyId
  · simp [h, User.unfavoriteStory]
  · simp [h, User.favoriteStory, push]

theorem toggle_favorites_rejected (u : User) (story : Story) (error : JsError)
    (rt : Runtime) :
    (u.toggleFavoriteStorySettled story (.rejected error) rt).receiver = u := by
  unfold User.toggleFavoriteStorySettled settle User.toggleFavoriteStory
  simp only [storyInFavorites_completion, storyInFavorites_receiver]
  by_cases h : story.storyId ∈ u.favorites.map Story.storyId
  · simp [h, User.unfavoriteStory]
  · simp [h, User.favoriteStory]

/-- The objects of the example session are what the methods build. -/
theorem exSession_trace :
    (StoryList.getStories (.resolved { stories := [exRecordA, exRecordB] }) exRuntime).1
        = .ok exStoryList
      ∧ (User.loginViaStoredCredentials "token" "reader" (.resolved { user := exUserRecord })
          exRuntimeLoaded).1 = .ok (.value exUser)
      ∧ getClickedStory exStoryList "a" = some exStoryA := by
  refine ⟨rfl, rfl, ?_⟩
  decide

/-- What `getClickedStory` finds is an entry of the list and carries the id asked for. -/
theorem getClickedStory_mem (storyList : StoryList) (targetStoryId : String) (story : Story)
    (h : getClickedStory storyList targetStoryId = some story) :
    story ∈ storyList.stories ∧ story.storyId = targetStoryId := by
  unfold getClickedStory at h
  have hmem := List.mem_of_mem_head? (Option.mem_def.mpr h)
  simpa using hmem

/-! ## The claims -/

/-- C1 (as amended): when `targetStory` is an entry of the collection and the
delete request succeeds, the collection is one entry shorter after
`removeStory`, and if the storyIds of the collection were pairwise distinct no
entry with the storyId of `targetStory` is left. -/
theorem removeStory_success_of_mem (self : StoryList) (user : User) (targetStory : Story)
    (data : MessageData) (rt : Runtime) (hmem : targetStory ∈ self.stories) :
    (self.removeStory (some user) targetStory (.resolved data) rt).receiver.stories.length + 1
        = self.stories.length
      ∧ ((self.stories.map Story.storyId).Nodup →
          ∀ s ∈ (self.removeStory (some user) targetStory (.resolved data) rt).receiver.stories,
            s.storyId ≠ targetStory.storyId) := by
  have hstories :
      (self.removeStory (some user) targetStory (.resolved data) rt).receiver.stories
        = self.stories.erase targetStory := by
    simp only [StoryList.removeStory]
    exact splice_indexOf_of_mem hmem
  rw [hstories]
  refine ⟨?_, ?_⟩
  · rw [List.length_erase_of_mem hmem]
    have hpos : 0 < self.stories.length := List.length_pos_of_mem hmem
    omega
  · intro hnodup s hs heq
    have hnd : self.stories.Nodup := List.Nodup.of_map Story.storyId hnodup
    have hne : s ≠ targetStory := ((List.Nodup.mem_erase_iff hnd).mp hs).1
    have hsmem : s ∈ self.stories := ((List.Nodup.mem_erase_iff hnd).mp hs).2
    exact hne (List.inj_on_of_nodup_map hnodup hsmem hmem heq)

/-- C1 witness: removing the list object of story `a` from the list `[a, b]`. -/
theorem removeStory_success_of_mem_witness :
    exStoryA ∈ exStoryList.stories
      ∧ (exStoryList.stories.map Story.storyId).Nodup
      ∧ (exStoryList.removeStory (some exUser) exStoryA (.resolved exMessage)
            exRuntimeLoaded).receiver.stories.length + 1 = exStoryList.stories.length
      ∧ ((exStoryList.stories.map Story.storyId).Nodup →
          ∀ s ∈ (exStoryList.removeStory (some exUser) exStoryA (.resolved exMessage)
              exRuntimeLoaded).receiver.stories, s.storyId ≠ exStoryA.storyId) :=
  ⟨by decide, by decide,
    removeStory_success_of_mem exStoryList exUser exStoryA exMessage exRuntimeLoaded
      (by decide)⟩

/-- C1 counterexample: with a successful delete request, (1) a target that is
not an entry of `[a, b]` but carries the storyId of `a` leaves `a` in the
collection, (2) on the empty collection the length does not decrease, and (3) a
target that is an entry of a collection holding its storyId twice leaves the
other entry with that storyId. -/
theorem removeStory_claim_counterexample :
    (¬ ∀ s ∈ (exStoryList.removeStory (some exUser) exFavoriteA (.resolved exMessage)
          exRuntimeLoaded).receiver.stories, s.storyId ≠ exFavoriteA.storyId)
      ∧ ((StoryList.mk []).removeStory (some exUser) exStoryA (.resolved exMessage)
          exRuntimeLoaded).receiver.stories.length + 1 ≠ (StoryList.mk []).stories.length
      ∧ (¬ ∀ s ∈ (exStoryListTwice.removeStory (some exUser) exStoryA (.resolved exMessage)
          exRuntimeLoaded).receiver.stories, s.storyId ≠ exStoryA.storyId) := by
  refine ⟨?_, ?_, ?_⟩
  · decide
  · decide
  · decide

/-- C3: evaluation at the failing input. The user has favorites `[a, b]` built by
the `User` constructor; `unfavoriteStory` is called with the list object of
story `a`, which is not an entry of favorites, and the request succeeds.
Favorite `b` is removed and favorite `a` stays. -/
theorem unfavoriteStory_removes_last_entry :
    exStoryA ∉ exUser.favorites
      ∧ exUser.favorites = [exFavoriteA, exFavoriteB]
      ∧ (exUser.unfavoriteStory exStoryA (.resolved exMessage) exRuntimeLoaded).completion
          = .ok .undefined
      ∧ (exUser.unfavoriteStory exStoryA (.resolved exMessage) exRuntimeLoaded).receiver.favorites
          = [exFavoriteA] := by
  refine ⟨?_, rfl, rfl, ?_⟩
  · decide
  · decide

/-- C4: `storyInFavorites(story)` returns true exactly when some entry of
favorites has the storyId of `story`, false otherwise, and leaves the user
(favorites, ownStories and loginToken included) as it was. -/
theorem storyInFavorites_iff (u : User) (story : Story) (rt : Runtime) :
    (u.storyInFavorites story rt).completion
        = .ok (decide (∃ f, f ∈ u.favorites ∧ f.storyId = story.storyId))
      ∧ (u.storyInFavorites story rt).receiver.favorites = u.favorites
      ∧ (u.storyInFavorites story rt).receiver.ownStories = u.ownStories
      ∧ (u.storyInFavorites story rt).receiver.loginToken = u.loginToken := by
  refine ⟨?_, rfl, rfl, rfl⟩
  unfold User.storyInFavorites
  simp only [Except.ok.injEq]
  rw [Bool.eq_iff_iff]
  simp only [List.find?_isSome, decide_eq_true_eq]

/-- C5: when the create request succeeds, `addStory` returns the Story built
from the response record, and the collection afterwards is the previous
collection followed by that Story: one entry longer, the new last entry
carrying the storyId of the response. -/
theorem addStory_appends (self : StoryList) (user : User) (draft : Draft) (data : StoryData)
    (rt : Runtime) :
    (self.addStory (some user) draft (.resolved data) rt).completion
        = .ok (Story.new rt.nextRef data.story)
      ∧ (self.addStory (some user) draft (.resolved data) rt).receiver.stories
        = self.stories ++ [Story.new rt.nextRef data.story]
      ∧ (self.addStory (some user) draft (.resolved data) rt).receiver.stories.length
        = self.stories.length + 1
      ∧ (self.addStory (some user) draft (.resolved data) rt).receiver.stories.take
          self.stories.length = self.stories
      ∧ ((self.addStory (some user) draft (.resolved data) rt).receiver.stories.getLast?).map
          Story.storyId = some data.story.storyId := by
  simp [StoryList.addStory, push, Story.new]

/-- C6: when the delete request fails, `removeStory` returns null without
throwing and the collection is what it was. -/
theorem removeStory_failure_unchanged (self : StoryList) (user : User) (targetStory : Story)
    (error : JsError) (rt : Runtime) :
    (self.removeStory (some user) targetStory (.rejected error) rt).completion = .ok .null
      ∧ (self.removeStory (some user) targetStory (.rejected error) rt).receiver.stories
        = self.stories :=
  ⟨rfl, rfl⟩

/-- C7: when the add-favorite request succeeds, favorites after
`favoriteStory(story)` is the previous favorites followed by `story`; when it
fails, the call returns null without throwing and favorites is what it was. -/
theorem favoriteStory_appends_or_keeps (u : User) (story : Story) (data : MessageData)
    (error : JsError) (rt : Runtime) :
    (u.favoriteStory story (.resolved data) rt).receiver.favorites = u.favorites ++ [story]
      ∧ (u.favoriteStory story (.rejected error) rt).completion = .ok .null
      ∧ (u.favoriteStory story (.rejected error) rt).receiver.favorites = u.favorites :=
  ⟨rfl, rfl, rfl⟩

/-- C8: when the profile request fails, `loginViaStoredCredentials` returns null
and does not throw. -/
theorem loginViaStoredCredentials_failure (token username : String) (error : JsError)
    (rt : Runtime) :
    (User.loginViaStoredCredentials token username (.rejected error) rt).1 = .ok .null :=
  rfl

theorem mapNewStory_length (next : Nat) (records : List StoryRecord) :
    (mapNewStory next records).length = records.length := by
  induction records generalizing next with
  | nil => rfl
  | cons r rs ih => simp [mapNewStory, ih]

theorem mapNewStory_fields (next : Nat) (records : List StoryRecord) :
    List.Forall₂
      (fun (s : Story) (r : StoryRecord) =>
        s.storyId = r.storyId ∧ s.title = r.title ∧ s.author = r.author ∧ s.url = r.url
          ∧ s.username = r.username ∧ s.createdAt = r.createdAt)
      (mapNewStory next records) records := by
  induction records generalizing next with
  | nil => exact List.Forall₂.nil
  | cons r rs ih =>
      exact List.Forall₂.cons ⟨rfl, rfl, rfl, rfl, rfl, rfl⟩ (ih (next + 1))

/-- C9: for a successful list response, `getStories` returns a StoryList with
as many stories as the response has records, in the same order, the i-th Story
carrying the six fields of the i-th record. -/
theorem getStories_keeps_records (data : StoriesData) (rt : Runtime) :
    ∃ storyList : StoryList,
      (StoryList.getStories (.resolved data) rt).1 = .ok storyList
        ∧ storyList.stories.length = data.stories.length
        ∧ List.Forall₂
            (fun (s : Story) (r : StoryRecord) =>
              s.storyId = r.storyId ∧ s.title = r.title ∧ s.author = r.author ∧ s.url = r.url
                ∧ s.username = r.username ∧ s.createdAt = r.createdAt)
            storyList.stories data.stories :=
  ⟨{ stories := mapNewStory rt.nextRef data.stories }, rfl,
    mapNewStory_length rt.nextRef data.stories, mapNewStory_fields rt.nextRef data.stories⟩

/-- C10 (as amended): when the favorites have pairwise distinct storyIds and no
other toggle is called between `toggleFavoriteStory(story)` and the settlement
of the request it issues, the favorites still have pairwise distinct storyIds
after that settlement, whether the request succeeds or fails. -/
theorem toggleFavoriteStory_keeps_distinct (u : User) (story : Story)
    (response : AxiosResult MessageData) (rt : Runtime)
    (h : (u.favorites.map Story.storyId).Nodup) :
    ((u.toggleFavoriteStorySettled story response rt).receiver.favorites.map Story.storyId).Nodup := by
  cases response with
  | rejected error =>
      rw [toggle_favorites_rejected]
      exact h
  | resolved data =>
      rw [toggle_favorites_resolved]
      by_cases hin : story.storyId ∈ u.favorites.map Story.storyId
      · rw [if_pos hin]
        exact List.Nodup.sublist
          (List.Sublist.map Story.storyId (splice_indexOf_sublist u.favorites story)) h
      · rw [if_neg hin, List.map_append, List.map_singleton]
        exact List.Nodup.append h (List.nodup_singleton _)
          (List.disjoint_singleton.mpr (fun hmem => hin hmem))

/-- C10 witness: the user whose favorites are `[b]` toggles story `a` and the
request settles before anything else happens. -/
theorem toggleFavoriteStory_keeps_distinct_witness :
    (exUserOnlyB.favorites.map Story.storyId).Nodup
      ∧ ((exUserOnlyB.toggleFavoriteStorySettled exStoryA (.resolved exMessage)
          exRuntimeLoaded).receiver.favorites.map Story.storyId).Nodup :=
  ⟨by decide,
    toggleFavoriteStory_keeps_distinct exUserOnlyB exStoryA (.resolved exMessage)
      exRuntimeLoaded (by decide)⟩

/-- C10 counterexample: the favorites are `[b]`, with distinct storyIds.
`toggleFavoriteStory(a)` is called twice before the first request settles. The
second call still finds the favorites `[b]`, so it dispatches `favoriteStory`
as the first did; both requests succeed and the favorites end as `[b, a, a]`,
where storyId `a` occurs twice. -/
theorem toggleFavoriteStory_overlap_counterexample :
    (exUserOnlyB.favorites.map Story.storyId).Nodup
      ∧ (exUserOnlyB.toggleFavoriteStory exStoryA exRuntimeLoaded).receiver.favorites
          = [exFavoriteB]
      ∧ (exUserOnlyB.toggleFavoriteStory exStoryA exRuntimeLoaded).pending
          = some (.favoriteStory exStoryA)
      ∧ (exUserOnlyB.toggleFavoriteStoryOverlapped exStoryA exStoryA (.resolved exMessage)
          (.resolved exMessage) exRuntimeLoaded).1.favorites
          = [exFavoriteB, exStoryA, exStoryA]
      ∧ ¬ ((exUserOnlyB.toggleFavoriteStoryOverlapped exStoryA exStoryA (.resolved exMessage)
          (.resolved exMessage) exRuntimeLoaded).1.favorites.map Story.storyId).Nodup := by
  refine ⟨?_, ?_, ?_, ?_, ?_⟩
  · decide
  · decide
  · decide
  · decide
  · decide

/-- Two successful toggles, each settled before the next event, of a story that is
an entry of favorites, or whose storyId no favorite carries, leave a
rearrangement of the original favorites. -/
theorem toggle_twice_perm (u : User) (story : Story) (d1 d2 : MessageData)
    (rt1 rt2 : Runtime) (hnodup : (u.favorites.map Story.storyId).Nodup)
    (hstory : story ∈ u.favorites ∨ story.storyId ∉ u.favorites.map Story.storyId) :
    List.Perm
      ((u.toggleFavoriteStorySettled story (.resolved d1) rt1).receiver.toggleFavoriteStorySettled story
        (.resolved d2) rt2).receiver.favorites
      u.favorites := by
  rw [toggle_favorites_resolved, toggle_favorites_resolved]
  by_cases hin : story.storyId ∈ u.favorites.map Story.storyId
  · have hmem : story ∈ u.favorites := hstory.resolve_right (fun h => h hin)
    have hnd : u.favorites.Nodup := List.Nodup.of_map Story.storyId hnodup
    have hgone : story.storyId ∉ (u.favorites.erase story).map Story.storyId := by
      intro hid
      obtain ⟨s, hs, heq⟩ := List.mem_map.mp hid
      have hne : s ≠ story := ((List.Nodup.mem_erase_iff hnd).mp hs).1
      have hsmem : s ∈ u.favorites := ((List.Nodup.mem_erase_iff hnd).mp hs).2
      exact hne (List.inj_on_of_nodup_map hnodup hsmem hmem heq)
    rw [if_pos hin, splice_indexOf_of_mem hmem, if_neg hgone]
    exact (List.perm_append_comm.trans (List.perm_cons_erase hmem).symm)
  · have hnot : story ∉ u.favorites := fun h => hin (List.mem_map_of_mem Story.storyId h)
    have hin2 : story.storyId ∈ (u.favorites ++ [story]).map Story.storyId := by simp
    have hmem2 : story ∈ u.favorites ++ [story] := by simp
    rw [if_neg hin, if_pos hin2, splice_indexOf_of_mem hmem2,
      List.erase_append_right _ hnot]
    simp

/-- C2 (as amended): when the favorites have pairwise distinct storyIds and
`story` is an entry of favorites or carries a storyId no favorite has, two
consecutive `toggleFavoriteStory(story)` calls whose requests succeed, the first
settled before the second call, leave the same set of storyIds in favorites, so
`storyInFavorites` answers as before for every story. -/
theorem toggleFavoriteStory_twice_restores (u : User) (story : Story) (d1 d2 : MessageData)
    (rt1 rt2 : Runtime) (hnodup : (u.favorites.map Story.storyId).Nodup)
    (hstory : story ∈ u.favorites ∨ story.storyId ∉ u.favorites.map Story.storyId) :
    (∀ id : String,
        id ∈ ((u.toggleFavoriteStorySettled story (.resolved d1) rt1).receiver.toggleFavoriteStorySettled
            story (.resolved d2) rt2).receiver.favorites.map Story.storyId
          ↔ id ∈ u.favorites.map Story.storyId)
      ∧ ∀ (other : Story) (rt : Runtime),
          (((u.toggleFavoriteStorySettled story (.resolved d1) rt1).receiver.toggleFavoriteStorySettled
              story (.resolved d2) rt2).receiver.storyInFavorites other rt).completion
            = (u.storyInFavorites other rt).completion := by
  have hperm := toggle_twice_perm u story d1 d2 rt1 rt2 hnodup hstory
  have hids : ∀ id : String,
      id ∈ ((u.toggleFavoriteStorySettled story (.resolved d1) rt1).receiver.toggleFavoriteStorySettled
          story (.resolved d2) rt2).receiver.favorites.map Story.storyId
        ↔ id ∈ u.favorites.map Story.storyId :=
    fun id => (hperm.map Story.storyId).mem_iff
  refine ⟨hids, ?_⟩
  intro other rt
  rw [storyInFavorites_completion, storyInFavorites_completion]
  exact congrArg Except.ok (decide_eq_decide.mpr (hids other.storyId))

/-- C2 witness: the favorites `[a, b]` hold the toggled list object of story `a`. -/
theorem toggleFavoriteStory_twice_restores_witness :
    ((exUserMember.favorites.map Story.storyId).Nodup
        ∧ (exStoryA ∈ exUserMember.favorites
            ∨ exStoryA.storyId ∉ exUserMember.favorites.map Story.storyId))
      ∧ ((∀ id : String,
          id ∈ ((exUserMember.toggleFavoriteStorySettled exStoryA (.resolved exMessage)
              exRuntimeLoaded).receiver.toggleFavoriteStorySettled exStoryA (.resolved exMessage)
              exRuntimeLoaded).receiver.favorites.map Story.storyId
            ↔ id ∈ exUserMember.favorites.map Story.storyId)
        ∧ ∀ (other : Story) (rt : Runtime),
            (((exUserMember.toggleFavoriteStorySettled exStoryA (.resolved exMessage)
                exRuntimeLoaded).receiver.toggleFavoriteStorySettled exStoryA (.resolved exMessage)
                exRuntimeLoaded).receiver.storyInFavorites other rt).completion
              = (exUserMember.storyInFavorites other rt).completion) :=
  ⟨⟨by decide, Or.inl (by decide)⟩,
    toggleFavoriteStory_twice_restores exUserMember exStoryA exMessage exMessage exRuntimeLoaded
      exRuntimeLoaded (by decide) (Or.inl (by decide))⟩

/-- C2 counterexample: two successful toggles of the list object of story `a`
(1) on favorites `[a, b]` built by the `User` constructor remove both favorites,
so storyId `b` is lost, and (2) on favorites holding that very object twice
remove both entries, so storyId `a` is lost. -/
theorem toggleFavoriteStory_twice_counterexample :
    ("b" ∈ exUser.favorites.map Story.storyId
        ∧ "b" ∉ ((exUser.toggleFavoriteStorySettled exStoryA (.resolved exMessage)
            exRuntimeLoaded).receiver.toggleFavoriteStorySettled exStoryA (.resolved exMessage)
            exRuntimeLoaded).receiver.favorites.map Story.storyId)
      ∧ ("a" ∈ exUserTwice.favorites.map Story.storyId
        ∧ "a" ∉ ((exUserTwice.toggleFavoriteStorySettled exStoryA (.resolved exMessage)
            exRuntimeLoaded).receiver.toggleFavoriteStorySettled exStoryA (.resolved exMessage)
            exRuntimeLoaded).receiver.favorites.map Story.storyId) := by
  refine ⟨⟨?_, ?_⟩, ⟨?_, ?_⟩⟩
  · decide
  · decide
  · decide
  · decide

end HackOrSnooze
